import Mathlib

/-!
Verification development for the ota-client repository.

Shallow embedding of the components relevant to the checked claims:

* `get_backoff`, `file_sha256`, `verify_file` from `src/otaclient/app/common.py`
* the `/boot` routing of regular entries, from
  `src/app/create_bank/_rebuild_mode.py` (`RebuildMode._apply_delta`) and
  `src/otaclient/app/ota_metadata.py` (`RegularInf.base`)
* `_HardlinkTracker` / `HardlinkRegister` from `src/app/create_bank/_common.py`
* `RegularInfSet` / `RegularDelta` / `DeltaGenerator._calculate_delta_offline`
  from `src/app/create_bank/_common.py`
* `OtaStateSync` and the update/rollback entry points from `src/app/ota_client.py`
* `GrubController._init_boot_control` / `_finalize_update` from
  `src/app/boot_control/grub.py`

Python conventions used by the embedding: machine-level file contents are
`List Nat` (byte sequences); Python `float` arithmetic is modelled over `ℚ`;
Python `set` objects become duplicate-free `List`s (insertion order fixes the
otherwise arbitrary iteration order); Python `dict` objects become
insertion-ordered association lists; code that can raise returns `Except PyErr`.
-/

/-- Python exception kinds that the embedded code can raise. -/
inductive PyErr where
  | attributeError
  | keyError
  | typeError
  | indexError
  | runtimeError (msg : String)
  | timeoutError (msg : String)
  | valueError (msg : String)
  | osError (msg : String)
deriving DecidableEq, Repr

/-- Python `str.startswith`, i.e. a prefix test on the character sequences. -/
def pyStartswith (s pre : String) : Bool :=
  pre.data.isPrefixOf s.data

/-! ## Manifest entry type

`RegularInf` from `src/otaclient/app/ota_metadata.py` (one parsed line of
`regulars.txt`).  The source stores the fields as regex match groups; the
embedding keeps the parsed attribute record.  Equality of entries is
structural (entries are plain value records in the data model). -/

structure RegularInf where
  mode : Nat
  uid : Nat
  gid : Nat
  nlink : Nat
  sha256hash : String
  path : String
  size : Option Nat
  inode : Option String
deriving DecidableEq, Repr

/-- Property `RegularInf.base` from `src/otaclient/app/ota_metadata.py`:
returns the string `/boot` when the entry path starts with `/boot`,
otherwise the string `/`. -/
def RegularInf.base (r : RegularInf) : String :=
  if pyStartswith r.path "/boot" then "/boot" else "/"

/-- Destination root chosen by `RebuildMode._apply_delta`
(`src/app/create_bank/_rebuild_mode.py`): the standby rootfs mount point
unless `str(entry.path).startswith("/boot")`, in which case the boot
directory. -/
def apply_delta_mount_point (new_bank_root boot_dir : String) (entry_path : String) : String :=
  if ¬ pyStartswith entry_path "/boot" then new_bank_root else boot_dir

/-! ## Back-off policy (`get_backoff` in `src/otaclient/app/common.py`) -/

/-- Function `get_backoff(n, factor, _max)` returning
`min(_max, factor * (2 ** (n - 1)))`.  Python evaluates `2 ** (n - 1)` for an
`int` exponent that may be negative (yielding a float), hence the `ℤ`-power. -/
def get_backoff (n : ℤ) (factor _max : ℚ) : ℚ :=
  min _max (factor * (2 : ℚ) ^ (n - 1))

/-! ## File verification (`file_sha256` / `verify_file` in
`src/otaclient/app/common.py`) -/

/-- Result of `stat`-level inspection of one filesystem path: the flags the
code queries plus the byte content and reported size. -/
structure FileNode where
  is_symlink : Bool
  is_regular : Bool
  size : Nat
  content : List Nat
deriving DecidableEq, Repr

/-- Chunked reading loop of `file_sha256`: repeatedly `read(chunk_size)` until
an empty read.  A zero `chunk_size` makes the first read return the empty
bytes object, so the loop stops at once with nothing consumed. -/
def readChunks (chunk_size : Nat) : List Nat → List (List Nat)
  | [] => []
  | x :: rest =>
    if chunk_size = 0 then []
    else (x :: rest).take chunk_size :: readChunks chunk_size ((x :: rest).drop chunk_size)
termination_by l => l.length
decreasing_by
  simp only [List.length_drop, List.length_cons]
  omega

/-- Function `file_sha256`: stream the file content chunk by chunk into the
hash state and return the final hex digest.  The digest function `hashFn` is a
parameter of the embedding (incrementally hashing the chunks equals hashing
the concatenation of the consumed chunks). -/
def file_sha256 (hashFn : List Nat → String) (chunk_size : Nat) (content : List Nat) : String :=
  hashFn (readChunks chunk_size content).flatten

/-- Function `verify_file(fpath, fhash, fsize)`: reject symlinks, non-regular
or missing paths and (when a size is given) size mismatches, otherwise compare
the streamed digest with `fhash`.  The filesystem is a map from path to an
optional `FileNode`. -/
def verify_file (hashFn : List Nat → String) (chunk_size : Nat)
    (fs : String → Option FileNode) (fpath : String) (fhash : String)
    (fsize : Option Nat) : Bool :=
  match fs fpath with
  | none => false
  | some f =>
    if f.is_symlink || !f.is_regular ||
        (match fsize with
         | none => false
         | some s => f.size != s) then
      false
    else
      file_sha256 hashFn chunk_size f.content == fhash

theorem readChunks_flatten_of_le (chunk_size : Nat) (hcs : 0 < chunk_size) :
    ∀ (n : Nat) (l : List Nat), l.length ≤ n → (readChunks chunk_size l).flatten = l := by
  intro n
  induction n with
  | zero =>
    intro l hl
    have : l = [] := List.eq_nil_of_length_eq_zero (Nat.le_zero.mp hl)
    subst this
    simp [readChunks]
  | succ n ih =>
    intro l hl
    match l with
    | [] => simp [readChunks]
    | x :: rest =>
      simp only [List.length_cons] at hl
      rw [readChunks]
      rw [if_neg (Nat.pos_iff_ne_zero.mp hcs)]
      rw [List.flatten_cons]
      rw [ih ((x :: rest).drop chunk_size)
        (by simp only [List.length_drop, List.length_cons]; omega)]
      exact List.take_append_drop chunk_size (x :: rest)

theorem readChunks_flatten (chunk_size : Nat) (hcs : 0 < chunk_size) (l : List Nat) :
    (readChunks chunk_size l).flatten = l :=
  readChunks_flatten_of_le chunk_size hcs l.length l (Nat.le_refl _)

/-! ## Hardlink register (`src/app/create_bank/_common.py`)

The source stores trackers behind weak references; the embedding keeps the
registered trackers in an insertion-ordered association list (the claims only
speak about trackers while they are registered) and replaces the list of
`nlink - 1` weak references held by a tracker with its length. -/

/-- State of one `_HardlinkTracker`: the two `threading.Event` flags plus the
number of reader references still held (`_ref_holder`). -/
structure HardlinkTracker where
  first_copy_path : String
  first_copy_ready : Bool
  failed : Bool
  ref_holder : Nat
deriving DecidableEq, Repr

/-- Constructor `_HardlinkTracker.__init__(first_copy_path, ref, count)`:
both events start cleared and the holder keeps `count` references. -/
def HardlinkTracker.init (first_copy_path : String) (count : Nat) : HardlinkTracker :=
  ⟨first_copy_path, false, false, count⟩

/-- Method `writer_done`: set the first-copy-ready event. -/
def HardlinkTracker.writer_done (t : HardlinkTracker) : HardlinkTracker :=
  { t with first_copy_ready := true }

/-- Method `writer_on_failed`: set the failed event and clear the reference
holder. -/
def HardlinkTracker.writer_on_failed (t : HardlinkTracker) : HardlinkTracker :=
  { t with failed := true, ref_holder := 0 }

/-- Outcome of one `subscribe()` call on a tracker. -/
inductive SubscribeResult where
  | ok (first_copy_path : String) (t : HardlinkTracker)
  | err (e : PyErr)
  | blocked
deriving DecidableEq, Repr

/-- Method `subscribe`: poll until the first-copy-ready event is set, raising
`ValueError` if the failed event is observed first; when ready, pop one
reference (a pop on an empty holder swallows the `IndexError`) and return the
first-copy path.  With neither event set the poll loop never exits, which the
sequential embedding reports as `blocked`. -/
def HardlinkTracker.subscribe (t : HardlinkTracker) : SubscribeResult :=
  if t.first_copy_ready then
    .ok t.first_copy_path { t with ref_holder := t.ref_holder - 1 }
  else if t.failed then
    .err (.valueError ("writer failed on path=" ++ t.first_copy_path))
  else
    .blocked

/-- Lookup in an insertion-ordered association list (Python `dict.get`). -/
def alookup {V : Type} : List (String × V) → String → Option V
  | [], _ => none
  | (k, v) :: rest, key => if k = key then some v else alookup rest key

/-- Update the value stored under an existing key in place (Python
`d[k] = v` for a present key); append when the key is absent. -/
def aupdate {V : Type} : List (String × V) → String → V → List (String × V)
  | [], key, v => [(key, v)]
  | (k, w) :: rest, key, v =>
    if k = key then (k, v) :: rest else (k, w) :: aupdate rest key v

/-- Delete the entry stored under a key (Python `del d[k]` / `d.pop(k)`). -/
def aerase {V : Type} : List (String × V) → String → List (String × V)
  | [], _ => []
  | (k, w) :: rest, key => if k = key then rest else (k, w) :: aerase rest key

/-- The `HardlinkRegister`: both weak-valued maps collapse to one map from
group identifier to its tracker. -/
structure HardlinkRegister where
  entries : List (String × HardlinkTracker)
deriving DecidableEq, Repr

/-- Method `HardlinkRegister.get_tracker(_identifier, path, nlink)`: an
already-registered identifier yields the registered tracker and
`is_writer = False`; otherwise a fresh tracker holding `nlink - 1` references
is registered and returned with `is_writer = True`. -/
def HardlinkRegister.get_tracker (r : HardlinkRegister) (_identifier : String)
    (path : String) (nlink : Nat) : HardlinkTracker × Bool × HardlinkRegister :=
  match alookup r.entries _identifier with
  | some t => (t, false, r)
  | none =>
    let t := HardlinkTracker.init path (nlink - 1)
    (t, true, ⟨r.entries ++ [(_identifier, t)]⟩)

/-! ## Update orchestrator FSM (`OtaStateSync` in `src/app/ota_client.py`) -/

/-- The five FSM states of `OtaStateSync._STATE_LIST`. -/
inductive FsmSt where
  | START
  | S0
  | S1
  | S2
  | END
deriving DecidableEq, Repr

/-- One `threading.Event` latch per state (`_start` .. `_end` attributes). -/
structure OtaStateSync where
  ev_start : Bool
  ev_s0 : Bool
  ev_s1 : Bool
  ev_s2 : Bool
  ev_end : Bool
deriving DecidableEq, Repr

/-- Fresh `OtaStateSync`: every state event starts cleared. -/
def OtaStateSync.initial : OtaStateSync :=
  ⟨false, false, false, false, false⟩

/-- Read the latch of a state (`Event.is_set`). -/
def OtaStateSync.getFlag (m : OtaStateSync) : FsmSt → Bool
  | .START => m.ev_start
  | .S0 => m.ev_s0
  | .S1 => m.ev_s1
  | .S2 => m.ev_s2
  | .END => m.ev_end

/-- Set the latch of a state (`Event.set`). -/
def OtaStateSync.setFlag (m : OtaStateSync) : FsmSt → OtaStateSync
  | .START => { m with ev_start := true }
  | .S0 => { m with ev_s0 := true }
  | .S1 => { m with ev_s1 := true }
  | .S2 => { m with ev_s2 := true }
  | .END => { m with ev_end := true }

/-- The `_STATE_SWITCH` dict: `(expected state, caller) -> next state` with
exactly the four entries of the source. -/
def state_switch : FsmSt → String → Option FsmSt
  | .START, caller => if caller = "ota_service" then some .S0 else none
  | .S0, caller => if caller = "ota_client" then some .S1 else none
  | .S1, caller => if caller = "ota_client" then some .S2 else none
  | .S2, caller => if caller = "ota_service" then some .END else none
  | .END, _ => none

/-- Method `OtaStateSync.start(caller)`: only the starter `ota_service` (P1)
may start; the START latch is set (setting an already-set latch is a no-op
with the same resulting state). -/
def OtaStateSync.start (m : OtaStateSync) (caller : String) : Except PyErr OtaStateSync :=
  if caller ≠ "ota_service" then
    .error (.runtimeError "unexpected caller starts status machine")
  else
    .ok (m.setFlag .START)

/-- Entry half of `OtaStateSync.proceed(caller, expect, timeout)`:
`_state_selector` rejects a pair outside `_STATE_SWITCH`, then the current
latch is awaited (a cleared latch that nobody else sets expires the wait,
raising `TimeoutError`); on success the next state is yielded to the guarded
scope. -/
def OtaStateSync.proceed_enter (m : OtaStateSync) (caller : String)
    (expect : FsmSt) : Except PyErr FsmSt :=
  match state_switch expect caller with
  | none => .error (.runtimeError "unexpected caller or state")
  | some next =>
    if m.getFlag expect then .ok next
    else .error (.timeoutError "timeout waiting state")

/-- Exit half of `OtaStateSync.proceed`: in the `finally` block the next
latch is set if still cleared, otherwise a `RuntimeError` is raised. -/
def OtaStateSync.proceed_exit (m : OtaStateSync) (next : FsmSt) : Except PyErr OtaStateSync :=
  if m.getFlag next then
    .error (.runtimeError "next state latch already set")
  else
    .ok (m.setFlag next)

/-! ## Boot controller finalization (`src/app/boot_control/grub.py`) -/

/-- The persisted per-slot OTA status values (`OTAStatusEnum` of
`app/ota_status.py`, as used by both the grub controller and the client). -/
inductive OtaStatus where
  | INITIALIZED
  | SUCCESS
  | FAILURE
  | UPDATING
  | ROLLBACKING
  | ROLLBACK_FAILURE
deriving DecidableEq, Repr

/-- Environment observed by `GrubController._init_boot_control` at startup:
the active slot status file, the booted slot name, the persisted
`slot_in_use` file (`none` models `FileNotFoundError`), and the slot the
bootloader entry was last pointed at. -/
structure GrubCtx where
  loaded_ota_status : OtaStatus
  active_slot : String
  slot_in_use : Option String
  boot_switch_target : String
deriving DecidableEq, Repr

/-- Modelled from the spec: `OtaPartitionFile.is_switching_boot_partition_from_active_to_standby`
lives in `app/boot_control/_grub.py`, which is not among the sources.  Per
section 4.G the check reports whether the requested switch actually happened,
i.e. whether the currently booted slot is the recorded switch target. -/
def is_switching_boot_partition_from_active_to_standby (ctx : GrubCtx) : Bool :=
  ctx.active_slot == ctx.boot_switch_target

/-- Method `GrubController._finalize_update` (also bound as
`_finalize_rollback`): commit and report SUCCESS when the switch check holds,
otherwise FAILURE. -/
def GrubController.finalize_update (ctx : GrubCtx) : OtaStatus :=
  if is_switching_boot_partition_from_active_to_standby ctx then
    .SUCCESS
  else
    .FAILURE

/-- Method `GrubController._init_boot_control`: dispatch on the loaded status;
UPDATING and ROLLBACKING finalize, SUCCESS cross-checks `slot_in_use` against
the booted slot (a missing file reinitializes), all other statuses are kept.
The returned status is what `_store_current_ota_status` persists for the
active slot. -/
def GrubController.init_boot_control (ctx : GrubCtx) : OtaStatus :=
  match ctx.loaded_ota_status with
  | .UPDATING => GrubController.finalize_update ctx
  | .ROLLBACKING => GrubController.finalize_update ctx
  | .SUCCESS =>
    match ctx.slot_in_use with
    | some slot_in_use =>
      if ctx.active_slot ≠ slot_in_use then .FAILURE else .SUCCESS
    | none => .INITIALIZED
  | st => st

/-! ## Delta calculator (`src/app/create_bank/_common.py`)

`RegularInfSet` wraps a Python `set` of entries (`data`, `None` until the
first `add`) plus an optional verified first copy.  `RegularDelta` maps a
sha256 hash to its `RegularInfSet`.  Two behaviours of the source carry over
verbatim into the embedding because the claims hinge on them:

* `RegularDelta.add_entry` creates the bucket for a hash seen for the first
  time but never adds the entry to it, so `data` stays `None`;
* `RegularInfSet` defines `__iter__`/`__next__` but no `__contains__`, so the
  membership test `entry in self.data[_hash]` used by
  `RegularDelta.__contains__` falls back to iteration, which destructively
  pops the underlying set and compares the entry against the yielded
  `(is_last, entry)` tuples; `__next__` on a bucket whose `data` is still
  `None` evaluates `None.pop()`, an `AttributeError`. -/

/-- Python `==` between a `RegularInf` and the `(bool, RegularInf)` tuple
yielded by `RegularInfSet.__next__`: equality across unrelated types is
always `False`. -/
def pyEqEntryPair (_e : RegularInf) (_p : Bool × RegularInf) : Bool :=
  false

/-- State of one `RegularInfSet` bucket. -/
structure RegularInfSet where
  hash : String
  no_first_copy : Bool
  data : Option (List RegularInf)
  first_copy : Option RegularInf
deriving DecidableEq, Repr

/-- Constructor `RegularInfSet.__init__(_hash, skip_verify)`. -/
def RegularInfSet.initial (h : String) (skip_verify : Bool) : RegularInfSet :=
  ⟨h, skip_verify, none, none⟩

/-- Method `RegularInfSet.add(entry)`: record a verified first copy when
verification is enabled and none is held yet, then add the entry to the set
(created on first use).  `ver` is `verify_file` against the active slot. -/
def RegularInfSet.add (ver : RegularInf → Bool) (s : RegularInfSet)
    (entry : RegularInf) : RegularInfSet :=
  let s :=
    if !s.no_first_copy && s.first_copy.isNone && ver entry then
      { s with first_copy := some entry }
    else s
  let d := s.data.getD []
  { s with data := some (if entry ∈ d then d else d ++ [entry]) }

/-- Method `RegularInfSet.remove(entry)`: `self.data.remove(entry)`; on a
bucket never written to, `data` is `None` (`AttributeError`); a missing
element is a `KeyError`. -/
def RegularInfSet.remove (s : RegularInfSet) (entry : RegularInf) :
    Except PyErr RegularInfSet :=
  match s.data with
  | none => .error .attributeError
  | some d =>
    if entry ∈ d then .ok { s with data := some (d.erase entry) }
    else .error .keyError

/-- Method `RegularInfSet.is_empty`: `self._first_copy is None and
len(self.data) == 0`; the short-circuit skips `len` when a first copy is
held, otherwise `len(None)` is a `TypeError`. -/
def RegularInfSet.is_empty (s : RegularInfSet) : Except PyErr Bool :=
  if s.first_copy.isSome then .ok false
  else
    match s.data with
    | none => .error .typeError
    | some d => .ok d.isEmpty

/-- Append the members of `extra` not already present (Python
`set.update`). -/
def listUnion (d extra : List RegularInf) : List RegularInf :=
  extra.foldl (fun acc x => if x ∈ acc then acc else acc ++ [x]) d

/-- Method `RegularInfSet.update(_other)`: `self.data.update(_other.data)`;
`None` on either side raises. -/
def RegularInfSet.update_from (s other : RegularInfSet) : Except PyErr RegularInfSet :=
  match s.data, other.data with
  | none, _ => .error .attributeError
  | some _, none => .error .typeError
  | some d, some d2 => .ok { s with data := some (listUnion d d2) }

/-- One pass of the iteration driven by Python membership fallback: pop
entries off the set, comparing the probe against each yielded
`(is_last, entry)` tuple, until a match or exhaustion. -/
def popContains (e : RegularInf) : List RegularInf → Bool × List RegularInf
  | [] => (false, [])
  | x :: rest =>
    if pyEqEntryPair e (rest.isEmpty, x) then (true, rest)
    else popContains e rest

/-- Membership probe `entry in <RegularInfSet>` (no `__contains__`, so Python
iterates `__next__`, destructively).  A held first copy is yielded first
(and cleared); with `data` still `None` the first `pop` is `None.pop()`
(`AttributeError`), or `len(None)` (`TypeError`) when a first copy is
yielded. -/
def RegularInfSet.contains_entry (s : RegularInfSet) (e : RegularInf) :
    Except PyErr (Bool × RegularInfSet) :=
  match s.first_copy with
  | some fc =>
    match s.data with
    | none => .error .typeError
    | some d =>
      if pyEqEntryPair e (d.isEmpty, fc) then
        .ok (true, { s with first_copy := none })
      else
        let br := popContains e d
        .ok (br.1, { s with first_copy := none, data := some br.2 })
  | none =>
    match s.data with
    | none => .error .attributeError
    | some d =>
      let br := popContains e d
      .ok (br.1, { s with data := some br.2 })

/-- The `RegularDelta` mapping `sha256 hash -> RegularInfSet`. -/
structure RegularDelta where
  skip_verify : Bool
  data : List (String × RegularInfSet)
deriving DecidableEq, Repr

/-- Constructor `RegularDelta.__init__(skip_verify)` (the keyword default is
`True`, and it also applies to the `_hold` set of the offline delta). -/
def RegularDelta.initial (skip_verify : Bool) : RegularDelta :=
  ⟨skip_verify, []⟩

/-- Method `RegularDelta.add_entry(entry)`: an existing bucket receives the
entry; a first-seen hash only gets a fresh empty bucket — the entry itself is
dropped, exactly as in the source. -/
def RegularDelta.add_entry (ver : RegularInf → Bool) (dl : RegularDelta)
    (entry : RegularInf) : RegularDelta :=
  let h := entry.sha256hash
  match alookup dl.data h with
  | some s => { dl with data := aupdate dl.data h (s.add ver entry) }
  | none => { dl with data := dl.data ++ [(h, RegularInfSet.initial h dl.skip_verify)] }

/-- Method `RegularDelta.remove_entry(entry)`: unregistered hash is a
`KeyError`; otherwise remove from the bucket and delete the bucket when it
reports empty. -/
def RegularDelta.remove_entry (dl : RegularDelta) (entry : RegularInf) :
    Except PyErr RegularDelta :=
  let h := entry.sha256hash
  match alookup dl.data h with
  | none => .error .keyError
  | some s => do
    let s2 ← s.remove entry
    let empty ← s2.is_empty
    if empty then
      .ok { dl with data := aerase dl.data h }
    else
      .ok { dl with data := aupdate dl.data h s2 }

/-- Method `RegularDelta.__contains__(item)`: hash registered and (destructive
iteration) membership in the bucket. -/
def RegularDelta.contains_entry (dl : RegularDelta) (item : RegularInf) :
    Except PyErr (Bool × RegularDelta) :=
  let h := item.sha256hash
  match alookup dl.data h with
  | none => .ok (false, dl)
  | some s => do
    let br ← s.contains_entry item
    .ok (br.1, { dl with data := aupdate dl.data h br.2 })

/-- Method `RegularDelta.if_contains_hash(_hash)`. -/
def RegularDelta.if_contains_hash (dl : RegularDelta) (h : String) : Bool :=
  (alookup dl.data h).isSome

/-- Method `RegularDelta.merge_entryset(_hash, _pathset)`. -/
def RegularDelta.merge_entryset (dl : RegularDelta) (h : String)
    (pathset : RegularInfSet) : Except PyErr RegularDelta :=
  match alookup dl.data h with
  | none => .error .keyError
  | some target => do
    let t2 ← target.update_from pathset
    .ok { dl with data := aupdate dl.data h t2 }

/-- UserDict `pop` used by the optimization pass (`_new.pop(_hash)`). -/
def RegularDelta.pop_hash (dl : RegularDelta) (h : String) : RegularDelta :=
  { dl with data := aerase dl.data h }

/-- Entries held by a delta: the union of its buckets (the `first_copy`
pointer always aliases a member of `data`, so `data` lists the members). -/
def RegularDelta.all_entries (dl : RegularDelta) : List RegularInf :=
  dl.data.foldr (fun p acc => p.2.data.getD [] ++ acc) []

/-- Loop body for one streamed new-manifest entry of
`DeltaGenerator._calculate_delta_offline`: probe the old index (mutating it),
then either move the entry to `_hold` and remove it from the old index, or
add it to `_new`. -/
def calcDeltaStep (ver : RegularInf → Bool)
    (acc : RegularDelta × RegularDelta × RegularDelta) (entry : RegularInf) :
    Except PyErr (RegularDelta × RegularDelta × RegularDelta) := do
  let (rm, nw, hold) := acc
  let br ← rm.contains_entry entry
  if br.1 then
    let hold2 := hold.add_entry ver entry
    let rm2 ← br.2.remove_entry entry
    pure (rm2, nw, hold2)
  else
    pure (br.2, nw.add_entry ver entry, hold)

/-- Method `DeltaGenerator._calculate_delta_offline` over already-parsed
manifests: index the old manifest into `_rm`, stream the new manifest through
`calcDeltaStep`, then run the optimization pass that merges every `_new`
bucket whose hash also lives in `_hold` into `_hold` and pops it from `_new`.
Result order follows the source: `(_new, _hold, _rm)`.  All three deltas are
constructed with `skip_verify=True` — the keyword default also applies to
`_hold` (`RegularDelta()`). -/
def calculate_delta_offline (ver : RegularInf → Bool)
    (old_reg new_reg : List RegularInf) :
    Except PyErr (RegularDelta × RegularDelta × RegularDelta) := do
  let rm0 := old_reg.foldl (RegularDelta.add_entry ver) (RegularDelta.initial true)
  let st ← new_reg.foldlM (calcDeltaStep ver)
    (rm0, RegularDelta.initial true, RegularDelta.initial true)
  let (rm1, new1, hold1) := st
  let optimized := new1.data.filter (fun p => hold1.if_contains_hash p.1)
  let hold2 ← optimized.foldlM (fun h p => h.merge_entryset p.1 p.2) hold1
  let new2 := optimized.foldl (fun n p => n.pop_hash p.1) new1
  pure (new2, hold2, rm1)

/-! ## OTA client facade (`src/app/ota_client.py`)

`_BaseOtaClient.update` / `.rollback` with the state their handlers touch.
The long middle of `_update` (metadata fetch, standby build, FSM waits) is
abstracted as a continuation `k` running after the lock-guarded section; `k`
returns the state it produced together with the exception it raised, if any.
The status-mixin primitives (`check_update_status`, `check_rollback_status`,
`set_ota_status`, `store_standby_ota_status`) live in `app/ota_status.py`,
which is not among the sources, and are modelled from the spec. -/

/-- The three failure kinds of `OtaClientFailureType`. -/
inductive OtaClientFailureType where
  | NO_FAILURE
  | RECOVERABLE
  | UNRECOVERABLE
deriving DecidableEq, Repr

/-- The update phases of `OtaClientUpdatePhase`. -/
inductive OtaClientUpdatePhase where
  | INITIAL
  | METADATA
  | DIRECTORY
  | REGULAR
  | PERSISTENT
  | POST_PROCESSING
deriving DecidableEq, Repr

/-- Exceptions of `app/ota_error.py` that the facade translates. -/
inductive OtaError where
  | busy
  | recoverable (msg : String)
  | unrecoverable (msg : String)
deriving DecidableEq, Repr

/-- Mutable state of a `_BaseOtaClient` visible to the claims: the live OTA
status (also persisted by `set_ota_status`), the standby slot status file,
failure bookkeeping, the update phase, the progress statistics (abstracted to
a counter snapshot; `clear()` resets it) and the orchestrator FSM latches. -/
structure OtaClientState where
  ota_status : OtaStatus
  standby_ota_status : OtaStatus
  failure_type : OtaClientFailureType
  failure_reason : String
  update_phase : OtaClientUpdatePhase
  statistics : Nat
  fsm : OtaStateSync
deriving DecidableEq, Repr

/-- Modelled from the spec: `check_update_status` of the
`OtaStatusControlMixin` (`app/ota_status.py`, not among the sources) rejects
an update precondition violation — current status UPDATING or ROLLBACKING —
with `OtaErrorBusy` (section 4.I: exactly one of update/rollback in flight;
a second attempt is busy). -/
def check_update_status (s : OtaClientState) : Bool :=
  decide (s.ota_status = .UPDATING ∨ s.ota_status = .ROLLBACKING)

/-- Modelled from the spec: `check_rollback_status` (`app/ota_status.py`, not
among the sources) reports busy while an update or rollback is in flight and
otherwise permits rollback only from SUCCESS (section 4.I). -/
def check_rollback_status (s : OtaClientState) : Option OtaError :=
  if s.ota_status = .UPDATING ∨ s.ota_status = .ROLLBACKING then some .busy
  else if s.ota_status ≠ .SUCCESS then some (.recoverable "rollback only from SUCCESS")
  else none

/-- Method `_BaseOtaClient.update(version, url_base, cookies_json, fsm)`.
`parsed_cookies = none` models `json.loads(cookies_json)` raising
`JSONDecodeError` — note the parse happens before `_update` runs the busy
check.  The handlers mirror the `try/except` ladder of the source:
`OtaErrorBusy` returns RECOVERABLE without touching any state;
`JSONDecodeError`/`OtaErrorRecoverable` persist FAILURE on both slots and
return RECOVERABLE; everything else persists FAILURE and returns
UNRECOVERABLE.  `k` is the remainder of `_update` after the lock-guarded
mutations. -/
def OtaClient.update (parsed_cookies : Option (List (String × String)))
    (k : OtaClientState → OtaClientState × Option OtaError)
    (s : OtaClientState) : OtaClientFailureType × OtaClientState :=
  match parsed_cookies with
  | none =>
    (.RECOVERABLE,
      { s with ota_status := .FAILURE, standby_ota_status := .FAILURE,
               failure_type := .RECOVERABLE, failure_reason := "JSONDecodeError" })
  | some _ =>
    if check_update_status s then
      (.RECOVERABLE, s)
    else
      let s1 := { s with ota_status := .UPDATING, update_phase := .INITIAL,
                         failure_type := .NO_FAILURE, failure_reason := "",
                         statistics := 0 }
      match k s1 with
      | (s2, none) =>
        (.NO_FAILURE, { s2 with failure_type := .NO_FAILURE, failure_reason := "" })
      | (s2, some .busy) => (.RECOVERABLE, s2)
      | (s2, some (.recoverable m)) =>
        (.RECOVERABLE,
          { s2 with ota_status := .FAILURE, standby_ota_status := .FAILURE,
                    failure_type := .RECOVERABLE, failure_reason := m })
      | (s2, some (.unrecoverable m)) =>
        (.UNRECOVERABLE,
          { s2 with ota_status := .FAILURE, standby_ota_status := .FAILURE,
                    failure_type := .UNRECOVERABLE, failure_reason := m })

/-- Method `_BaseOtaClient.rollback()`: `enter_rollback` checks the rollback
precondition before any mutation; `OtaErrorBusy` returns RECOVERABLE without
touching state, other errors persist ROLLBACK_FAILURE.  `k` is
`leave_rollback` and the rest. -/
def OtaClient.rollback (k : OtaClientState → OtaClientState × Option OtaError)
    (s : OtaClientState) : OtaClientFailureType × OtaClientState :=
  match check_rollback_status s with
  | some .busy => (.RECOVERABLE, s)
  | some (.recoverable m) =>
    (.RECOVERABLE,
      { s with ota_status := .ROLLBACK_FAILURE, standby_ota_status := .ROLLBACK_FAILURE,
               failure_type := .RECOVERABLE, failure_reason := m })
  | some (.unrecoverable m) =>
    (.UNRECOVERABLE,
      { s with ota_status := .ROLLBACK_FAILURE, standby_ota_status := .ROLLBACK_FAILURE,
               failure_type := .UNRECOVERABLE, failure_reason := m })
  | none =>
    let s1 := { s with ota_status := .ROLLBACKING, standby_ota_status := .ROLLBACKING,
                       failure_type := .NO_FAILURE, failure_reason := "" }
    match k s1 with
    | (s2, none) =>
      (.NO_FAILURE, { s2 with failure_type := .NO_FAILURE, failure_reason := "" })
    | (s2, some .busy) => (.RECOVERABLE, s2)
    | (s2, some (.recoverable m)) =>
      (.RECOVERABLE,
        { s2 with ota_status := .ROLLBACK_FAILURE, standby_ota_status := .ROLLBACK_FAILURE,
                  failure_type := .RECOVERABLE, failure_reason := m })
    | (s2, some (.unrecoverable m)) =>
      (.UNRECOVERABLE,
        { s2 with ota_status := .ROLLBACK_FAILURE, standby_ota_status := .ROLLBACK_FAILURE,
                  failure_type := .UNRECOVERABLE, failure_reason := m })

/-! ## Claim C9 -/

/-- C9: for every retry number n >= 1, back-off factor f and back-off cap m,
the computed back-off delay equals min(m, f * 2 ^ (n - 1)). -/
theorem get_backoff_formula (n : ℤ) (factor _max : ℚ) (h : 1 ≤ n) :
    get_backoff n factor _max = min _max (factor * (2 : ℚ) ^ (n - 1).toNat) := by
  unfold get_backoff
  rw [← zpow_natCast (2 : ℚ) (n - 1).toNat, Int.toNat_of_nonneg (by omega)]

/-- C9 witness: the back-off formula evaluated at retry number 4. -/
theorem get_backoff_formula_witness :
    get_backoff 4 (3 / 2) 10 = min 10 ((3 / 2 : ℚ) * (2 : ℚ) ^ ((4 : ℤ) - 1).toNat) :=
  get_backoff_formula 4 (3 / 2) 10 (by norm_num)

/-! ## Claim C10 -/

/-- C10: `verify_file(p, h, s)` returns true iff `p` exists as a regular
non-symlink file whose streamed digest equals `h` and, when `s` is given,
whose reported size equals `s`; a symlink never verifies, and a missing `s`
means the size is not checked at all. -/
theorem verify_file_characterization (hashFn : List Nat → String) (chunk_size : Nat)
    (fs : String → Option FileNode) (fpath fhash : String) (fsize : Option Nat)
    (hcs : 0 < chunk_size) :
    verify_file hashFn chunk_size fs fpath fhash fsize = true ↔
      ∃ f, fs fpath = some f ∧ f.is_symlink = false ∧ f.is_regular = true ∧
        hashFn f.content = fhash ∧ ∀ sz, fsize = some sz → f.size = sz := by
  unfold verify_file file_sha256
  cases hfs : fs fpath with
  | none => simp
  | some f =>
    simp only []
    rw [readChunks_flatten chunk_size hcs]
    cases fsize with
    | none =>
      cases hsym : f.is_symlink <;> cases hreg : f.is_regular <;>
        simp [hsym, hreg, beq_iff_eq]
    | some sz =>
      cases hsym : f.is_symlink <;> cases hreg : f.is_regular <;>
        by_cases hsz : f.size = sz <;>
        simp [hsym, hreg, hsz, beq_iff_eq]

/-- C10 witness: a concrete one-byte regular file verifies against its digest
with the size left unchecked. -/
theorem verify_file_characterization_witness :
    0 < 2 ∧
      (verify_file (fun l => if l = [7] then "d7" else "other") 2
          (fun p => if p = "/f" then some ⟨false, true, 1, [7]⟩ else none) "/f" "d7" none = true ↔
        ∃ f, (fun p => if p = "/f" then some (⟨false, true, 1, [7]⟩ : FileNode) else none) "/f"
              = some f
          ∧ f.is_symlink = false ∧ f.is_regular = true
          ∧ (fun l => if l = [7] then "d7" else "other") f.content = "d7"
          ∧ ∀ sz, (none : Option Nat) = some sz → f.size = sz) :=
  ⟨by decide,
    verify_file_characterization (fun l => if l = [7] then "d7" else "other") 2
      (fun p => if p = "/f" then some ⟨false, true, 1, [7]⟩ else none) "/f" "d7" none
      (by decide)⟩

/-! ## Claim C8 -/

/-- C8 counterexample: the code routes on the prefix `/boot`, not `/boot/`.
The path `/bootstrap.sh` does not start with `/boot/`, so the claim places it
under the standby rootfs mount point, yet `_apply_delta` resolves it under
the boot directory. -/
theorem apply_delta_boot_prefix_cex :
    apply_delta_mount_point "/mnt/standby" "/boot" "/bootstrap.sh" = "/boot"
    ∧ pyStartswith "/bootstrap.sh" "/boot/" = false
    ∧ "/boot" ≠ "/mnt/standby" := by
  refine ⟨rfl, rfl, by decide⟩

/-- C8 amended: a regular entry is routed to the boot directory iff its path
starts with `/boot` (no trailing slash required), and to the standby rootfs
mount point otherwise; `RegularInf.base` agrees. -/
theorem apply_delta_boot_routing (new_bank_root boot_dir : String) (r : RegularInf)
    (hdistinct : boot_dir ≠ new_bank_root) :
    (apply_delta_mount_point new_bank_root boot_dir r.path = boot_dir
      ↔ pyStartswith r.path "/boot" = true)
    ∧ (r.base = "/boot" ↔ pyStartswith r.path "/boot" = true) := by
  unfold apply_delta_mount_point RegularInf.base
  constructor
  · by_cases h : pyStartswith r.path "/boot" = true
    · simp [h]
    · simp [h, Ne.symm hdistinct]
  · by_cases h : pyStartswith r.path "/boot" = true
    · simp [h]
    · simp only [h, if_false]
      constructor
      · intro hh
        exact absurd hh (by decide)
      · intro hh
        cases hh

/-- C8 amended witness: with distinct roots, the kernel path `/boot/vmlinuz`
is routed to the boot directory and `base` reports `/boot`. -/
theorem apply_delta_boot_routing_witness :
    ("/bootdir" : String) ≠ "/mnt/standby"
    ∧ ((apply_delta_mount_point "/mnt/standby" "/bootdir" "/boot/vmlinuz" = "/bootdir"
          ↔ pyStartswith "/boot/vmlinuz" "/boot" = true)
        ∧ ((⟨420, 0, 0, 1, "cc", "/boot/vmlinuz", none, none⟩ : RegularInf).base = "/boot"
          ↔ pyStartswith "/boot/vmlinuz" "/boot" = true)) :=
  ⟨by decide,
    apply_delta_boot_routing "/mnt/standby" "/bootdir"
      ⟨420, 0, 0, 1, "cc", "/boot/vmlinuz", none, none⟩ (by decide)⟩

/-! ## Claim C7 -/

/-- C7 counterexample: `writer_on_failed()` takes no exception, so a reader
that subscribes after a writer failure receives the constant `ValueError`
naming the first-copy path — not the error the writer itself failed with
(here an OSError about a full disk). -/
theorem subscribe_error_is_not_writers_error :
    ((HardlinkTracker.init "/tmp/ota-tmp/aa" 3).writer_on_failed).subscribe
      = SubscribeResult.err (.valueError "writer failed on path=/tmp/ota-tmp/aa")
    ∧ ((HardlinkTracker.init "/tmp/ota-tmp/aa" 3).writer_on_failed).subscribe
      ≠ SubscribeResult.err (.osError "disk full") := by
  exact ⟨rfl, by decide⟩

/-- C7 amended: if the writer of a hardlink group calls `writer_on_failed()`
without having called `writer_done()`, then every reader that calls
`subscribe()` on that tracker fails with a `ValueError` naming the tracker's
first-copy path (the writer's own error is not propagated) instead of
returning a first-copy path. -/
theorem subscribe_after_writer_failed (p : String) (n : Nat) :
    ((HardlinkTracker.init p n).writer_on_failed).subscribe
      = SubscribeResult.err (.valueError ("writer failed on path=" ++ p)) :=
  rfl

/-! ## Claim C3 -/

/-- Helper: appending a binding for an absent key makes it found. -/
theorem alookup_append_right {V : Type} (l : List (String × V)) (k : String) (v : V)
    (h : alookup l k = none) : alookup (l ++ [(k, v)]) k = some v := by
  induction l with
  | nil => simp [alookup]
  | cons p rest ih =>
    obtain ⟨k2, w⟩ := p
    by_cases hk : k2 = k
    · rw [alookup, if_pos hk] at h
      cases h
    · rw [alookup, if_neg hk] at h
      rw [List.cons_append, alookup, if_neg hk]
      exact ih h

/-- C3: the first `get_tracker(group_id, path, nlink)` call for a group_id
returns a fresh tracker (both events cleared, first-copy path recorded,
exactly nlink - 1 reader references) with `is_writer = true` and registers
it; every later call with the same group_id, while the tracker is
registered, returns that same tracker with `is_writer = false` and leaves
the register unchanged. -/
theorem get_tracker_writer_then_readers (r : HardlinkRegister) (gid path : String)
    (nlink : Nat) :
    (alookup r.entries gid = none →
        (r.get_tracker gid path nlink).2.1 = true
      ∧ (r.get_tracker gid path nlink).1 = HardlinkTracker.init path (nlink - 1)
      ∧ (r.get_tracker gid path nlink).1.ref_holder = nlink - 1
      ∧ (r.get_tracker gid path nlink).1.first_copy_ready = false
      ∧ (r.get_tracker gid path nlink).1.failed = false
      ∧ alookup ((r.get_tracker gid path nlink).2.2).entries gid
          = some (r.get_tracker gid path nlink).1)
    ∧ (∀ t0, alookup r.entries gid = some t0 →
        r.get_tracker gid path nlink = (t0, false, r)) := by
  constructor
  · intro hnone
    have hred : r.get_tracker gid path nlink
        = (HardlinkTracker.init path (nlink - 1), true,
            ⟨r.entries ++ [(gid, HardlinkTracker.init path (nlink - 1))]⟩) := by
      unfold HardlinkRegister.get_tracker
      rw [hnone]
    rw [hred]
    exact ⟨rfl, rfl, rfl, rfl, rfl,
      alookup_append_right r.entries gid (HardlinkTracker.init path (nlink - 1)) hnone⟩
  · intro t0 hsome
    unfold HardlinkRegister.get_tracker
    rw [hsome]

/-- C3 witness: on an empty register the first call for group `g` is the
writer and holds 3 references for `nlink = 4`; the second call returns the
registered tracker as a reader and leaves the register unchanged. -/
theorem get_tracker_writer_then_readers_witness :
    ((HardlinkRegister.mk []).get_tracker "g" "/t/a" 4).2.1 = true
    ∧ ((HardlinkRegister.mk []).get_tracker "g" "/t/a" 4).1.ref_holder = 3
    ∧ ((((HardlinkRegister.mk []).get_tracker "g" "/t/a" 4).2.2).get_tracker "g" "/t/b" 4)
        = (((HardlinkRegister.mk []).get_tracker "g" "/t/a" 4).1, false,
            ((HardlinkRegister.mk []).get_tracker "g" "/t/a" 4).2.2) := by
  have h1 := (get_tracker_writer_then_readers (HardlinkRegister.mk []) "g" "/t/a" 4).1 rfl
  have h2 := (get_tracker_writer_then_readers
      (((HardlinkRegister.mk []).get_tracker "g" "/t/a" 4).2.2) "g" "/t/b" 4).2
      (((HardlinkRegister.mk []).get_tracker "g" "/t/a" 4).1)
      h1.2.2.2.2.2
  exact ⟨h1.1, h1.2.2.1, h2⟩

/-! ## Claim C6 -/

/-- C6: `start(caller)` raises for every caller other than `ota_service`
(P1); `proceed(caller, expect)` raises for every `(expect, caller)` pair
outside the state-switch table `{(START, P1) -> S0, (S0, P2) -> S1,
(S1, P2) -> S2, (S2, P1) -> END}` and follows the table otherwise; on exit
of a successful proceed the next state's latch is set, and a `RuntimeError`
is raised when that latch was already set. -/
theorem ota_state_sync_fsm (m : OtaStateSync) (caller : String) (expect : FsmSt) :
    (caller ≠ "ota_service" →
      m.start caller = .error (.runtimeError "unexpected caller starts status machine"))
    ∧ (¬ ((expect = .START ∧ caller = "ota_service")
          ∨ (expect = .S0 ∧ caller = "ota_client")
          ∨ (expect = .S1 ∧ caller = "ota_client")
          ∨ (expect = .S2 ∧ caller = "ota_service")) →
        m.proceed_enter caller expect = .error (.runtimeError "unexpected caller or state"))
    ∧ (m.getFlag .START = true → m.proceed_enter "ota_service" .START = .ok .S0)
    ∧ (m.getFlag .S0 = true → m.proceed_enter "ota_client" .S0 = .ok .S1)
    ∧ (m.getFlag .S1 = true → m.proceed_enter "ota_client" .S1 = .ok .S2)
    ∧ (m.getFlag .S2 = true → m.proceed_enter "ota_service" .S2 = .ok .END)
    ∧ (∀ nx : FsmSt,
        (m.getFlag nx = false →
          m.proceed_exit nx = .ok (m.setFlag nx) ∧ (m.setFlag nx).getFlag nx = true)
        ∧ (m.getFlag nx = true →
          m.proceed_exit nx = .error (.runtimeError "next state latch already set"))) := by
  refine ⟨?_, ?_, ?_, ?_, ?_, ?_, ?_⟩
  · intro h
    unfold OtaStateSync.start
    rw [if_pos h]
  · intro h
    cases expect with
    | START =>
      have hc : caller ≠ "ota_service" := fun hh => h (Or.inl ⟨rfl, hh⟩)
      unfold OtaStateSync.proceed_enter state_switch
      simp only []
      rw [if_neg hc]
    | S0 =>
      have hc : caller ≠ "ota_client" := fun hh => h (Or.inr (Or.inl ⟨rfl, hh⟩))
      unfold OtaStateSync.proceed_enter state_switch
      simp only []
      rw [if_neg hc]
    | S1 =>
      have hc : caller ≠ "ota_client" := fun hh => h (Or.inr (Or.inr (Or.inl ⟨rfl, hh⟩)))
      unfold OtaStateSync.proceed_enter state_switch
      simp only []
      rw [if_neg hc]
    | S2 =>
      have hc : caller ≠ "ota_service" := fun hh => h (Or.inr (Or.inr (Or.inr ⟨rfl, hh⟩)))
      unfold OtaStateSync.proceed_enter state_switch
      simp only []
      rw [if_neg hc]
    | END =>
      rfl
  · intro h
    unfold OtaStateSync.proceed_enter state_switch
    simp [h]
  · intro h
    unfold OtaStateSync.proceed_enter state_switch
    simp [h]
  · intro h
    unfold OtaStateSync.proceed_enter state_switch
    simp [h]
  · intro h
    unfold OtaStateSync.proceed_enter state_switch
    simp [h]
  · intro nx
    constructor
    · intro h
      unfold OtaStateSync.proceed_exit
      rw [if_neg (by simp [h])]
      refine ⟨rfl, ?_⟩
      cases nx <;> simp [OtaStateSync.getFlag, OtaStateSync.setFlag]
    · intro h
      unfold OtaStateSync.proceed_exit
      rw [if_pos h]

/-- C6 witness: concrete runs of the FSM — a client may not start the
machine, P1 may not switch out of S0, a set START latch lets P1 proceed to
S0, and the guarded-scope exit sets a cleared S0 latch but errors on an
already-set one. -/
theorem ota_state_sync_fsm_witness :
    OtaStateSync.initial.start "ota_client"
      = .error (.runtimeError "unexpected caller starts status machine")
    ∧ OtaStateSync.initial.proceed_enter "ota_service" .S0
      = .error (.runtimeError "unexpected caller or state")
    ∧ (OtaStateSync.initial.setFlag .START).proceed_enter "ota_service" .START = .ok .S0
    ∧ OtaStateSync.initial.proceed_exit .S0 = .ok (OtaStateSync.initial.setFlag .S0)
    ∧ (OtaStateSync.initial.setFlag .S0).proceed_exit .S0
      = .error (.runtimeError "next state latch already set") :=
  ⟨(ota_state_sync_fsm OtaStateSync.initial "ota_client" .START).1 (by decide),
   (ota_state_sync_fsm OtaStateSync.initial "ota_service" .S0).2.1 (by decide),
   (ota_state_sync_fsm (OtaStateSync.initial.setFlag .START) "ota_service" .START).2.2.1 rfl,
   (((ota_state_sync_fsm OtaStateSync.initial "ota_service" .START).2.2.2.2.2.2 .S0).1 rfl).1,
   ((ota_state_sync_fsm (OtaStateSync.initial.setFlag .S0) "ota_service" .START).2.2.2.2.2.2
      .S0).2 rfl⟩

/-! ## Claim C2 -/

/-- C2: when the previous run requested a switch to the standby slot — the
active slot's persisted status is UPDATING, or SUCCESS with a recorded
`slot_in_use` — and the device actually booted a slot other than the
recorded target, startup finalization stores FAILURE for the active slot and
never SUCCESS. -/
theorem init_boot_control_fallback (ctx : GrubCtx) (slot : String) :
    (ctx.loaded_ota_status = .UPDATING ∧ ctx.active_slot ≠ ctx.boot_switch_target)
      ∨ (ctx.loaded_ota_status = .SUCCESS ∧ ctx.slot_in_use = some slot
          ∧ ctx.active_slot ≠ slot) →
    GrubController.init_boot_control ctx = .FAILURE
    ∧ GrubController.init_boot_control ctx ≠ .SUCCESS := by
  intro h
  have hfail : GrubController.init_boot_control ctx = .FAILURE := by
    rcases h with ⟨hs, hneq⟩ | ⟨hs, hsiu, hneq⟩
    · unfold GrubController.init_boot_control
      rw [hs]
      unfold GrubController.finalize_update is_switching_boot_partition_from_active_to_standby
      rw [if_neg (by simp [hneq])]
    · unfold GrubController.init_boot_control
      rw [hs, hsiu]
      simp only []
      rw [if_pos hneq]
  refine ⟨hfail, ?_⟩
  rw [hfail]
  decide

/-- C2 witness: finalization at a concrete fallback boot — active slot sda2
with status UPDATING while the recorded switch target was sda3 — yields
FAILURE. -/
theorem init_boot_control_fallback_witness :
    GrubController.init_boot_control ⟨.UPDATING, "sda2", some "sda3", "sda3"⟩ = .FAILURE
    ∧ GrubController.init_boot_control ⟨.UPDATING, "sda2", some "sda3", "sda3"⟩
        ≠ .SUCCESS :=
  init_boot_control_fallback ⟨.UPDATING, "sda2", some "sda3", "sda3"⟩ "sda3"
    (Or.inl ⟨rfl, by decide⟩)

/-! ## Claim C5 -/

/-- C5 counterexample: `update()` runs `json.loads(cookies_json)` before
`_update` performs the busy check.  With an update in flight (status
UPDATING) a second `update()` call whose cookies_json is malformed raises
`JSONDecodeError`, whose handler rewrites the persisted status of both slots
to FAILURE — the call returns RECOVERABLE but does not leave the state
unchanged. -/
theorem update_busy_bad_json_mutates :
    (⟨.UPDATING, .UPDATING, .NO_FAILURE, "", .REGULAR, 42,
        OtaStateSync.initial⟩ : OtaClientState).ota_status = .UPDATING
    ∧ (OtaClient.update none (fun s => (s, none))
        ⟨.UPDATING, .UPDATING, .NO_FAILURE, "", .REGULAR, 42, OtaStateSync.initial⟩).1
      = .RECOVERABLE
    ∧ (OtaClient.update none (fun s => (s, none))
        ⟨.UPDATING, .UPDATING, .NO_FAILURE, "", .REGULAR, 42, OtaStateSync.initial⟩).2
      ≠ ⟨.UPDATING, .UPDATING, .NO_FAILURE, "", .REGULAR, 42, OtaStateSync.initial⟩ := by
  exact ⟨rfl, rfl, by decide⟩

/-- C5 amended: if `update()` (invoked with cookies_json that parses as
JSON) or `rollback()` is called while another update or rollback is in
flight, the call returns RECOVERABLE (busy) and leaves the whole client
state — persisted OTA status, progress statistics, FSM latches — unchanged;
this holds for every continuation of the non-busy path. -/
theorem update_rollback_busy_unchanged (parsed : List (String × String))
    (k k2 : OtaClientState → OtaClientState × Option OtaError) (s : OtaClientState)
    (hbusy : s.ota_status = .UPDATING ∨ s.ota_status = .ROLLBACKING) :
    OtaClient.update (some parsed) k s = (.RECOVERABLE, s)
    ∧ OtaClient.rollback k2 s = (.RECOVERABLE, s) := by
  constructor
  · unfold OtaClient.update
    simp only []
    rw [if_pos (by unfold check_update_status; exact decide_eq_true hbusy)]
  · unfold OtaClient.rollback check_rollback_status
    rw [if_pos hbusy]

/-- C5 amended witness: a busy client (status UPDATING) rejects a concrete
well-formed second update and a concrete rollback without any mutation. -/
theorem update_rollback_busy_unchanged_witness :
    OtaClient.update (some []) (fun s => (s, none))
        ⟨.UPDATING, .UPDATING, .NO_FAILURE, "", .REGULAR, 42, OtaStateSync.initial⟩
      = (.RECOVERABLE,
          ⟨.UPDATING, .UPDATING, .NO_FAILURE, "", .REGULAR, 42, OtaStateSync.initial⟩)
    ∧ OtaClient.rollback (fun s => (s, none))
        ⟨.UPDATING, .UPDATING, .NO_FAILURE, "", .REGULAR, 42, OtaStateSync.initial⟩
      = (.RECOVERABLE,
          ⟨.UPDATING, .UPDATING, .NO_FAILURE, "", .REGULAR, 42, OtaStateSync.initial⟩) :=
  update_rollback_busy_unchanged [] (fun s => (s, none)) (fun s => (s, none))
    ⟨.UPDATING, .UPDATING, .NO_FAILURE, "", .REGULAR, 42, OtaStateSync.initial⟩
    (Or.inl rfl)

/-! ## Claims C1 and C4 -/

/-- Sample manifest entry with hash `aa` at path `/a`. -/
def entryA : RegularInf :=
  ⟨420, 0, 0, 1, "aa", "/a", some 3, none⟩

/-- Sample manifest entry with hash `bb` at path `/b`. -/
def entryB : RegularInf :=
  ⟨420, 0, 0, 1, "bb", "/b", some 4, none⟩

/-- C1: the delta-partition invariant fails on the code.  With old manifest
`[entryA]` and new manifest `[entryB]` (distinct hashes), the offline delta
returns buckets that contain no entries at all: `RegularDelta.add_entry`
registers a fresh bucket for a first-seen hash but never adds the entry to
it, so new_set, hold_set and obsolete_set are all empty instead of jointly
covering `{entryA, entryB}`. -/
theorem calculate_delta_offline_drops_all_entries :
    (calculate_delta_offline (fun _ => false) [entryA] [entryB]).map
        (fun r => ((r.1.all_entries ++ r.2.1.all_entries ++ r.2.2.all_entries).contains entryA,
                   (r.1.all_entries ++ r.2.1.all_entries ++ r.2.2.all_entries).contains entryB,
                   r.1.all_entries ++ r.2.1.all_entries ++ r.2.2.all_entries))
      = Except.ok (false, false, []) := by
  rfl

/-- C4: streaming a new-manifest entry whose hash exists in the old index
does not move it to hold_set; it crashes.  With old manifest `[entryA]` and
new manifest `[entryA]`, the bucket registered by `add_entry` still has
`data = None`, and the destructive membership probe evaluates `None.pop()`,
so `_calculate_delta_offline` raises `AttributeError` instead of producing
hold/new/obsolete sets. -/
theorem calculate_delta_offline_attribute_error :
    calculate_delta_offline (fun _ => false) [entryA] [entryA]
      = Except.error PyErr.attributeError := by
  rfl
